import Mathlib

/-!
Verification of the chatbot pipeline in `bot_logic.py`.

Python strings are embedded as `List Char`; the Python string operations
used by the source (`strip`, `lower`, `upper`, `in`, `replace`,
`startswith`, `", ".join`) are given executable Lean counterparts below.
Case mapping is modelled on ASCII, which covers every string the source
manipulates. The external collaborators (Azure OpenAI `llm.invoke`,
SQLAlchemy introspection, `pd.read_sql`, `pd.read_json`, the DataFrame
renderings) are modelled as an explicit environment `Env`; a Python
exception is `Exc`, split into `ValueError` and everything else, which is
the distinction `handle_query`'s two `except` arms dispatch on. Every
outbound call is recorded as an `Event` so that the call-count claims can
be stated over the event trace.
-/

set_option linter.unusedVariables false

/-- Python strings, embedded as lists of characters. -/
abbrev Str := List Char

/-- Converts a Lean string literal to the embedded representation. -/
def toStr (s : String) : Str := s.data

/-- The whitespace characters stripped by Python's `str.strip()` (ASCII part). -/
def pyIsSpace (c : Char) : Bool :=
  c = ' ' || c = '\t' || c = '\n' || c = '\r' || c = '\x0b' || c = '\x0c'

/-- Python `str.strip()`: drop whitespace from both ends. -/
def stripL (s : Str) : Str :=
  ((s.dropWhile pyIsSpace).reverse.dropWhile pyIsSpace).reverse

/-- Python `str.lower()` (ASCII). -/
def lowerL (s : Str) : Str := s.map Char.toLower

/-- Python `str.upper()` (ASCII). -/
def upperL (s : Str) : Str := s.map Char.toUpper

/-- Python `pat in s`: substring containment. -/
def containsSub (pat : Str) : Str → Bool
  | [] => pat.isPrefixOf []
  | c :: rest => pat.isPrefixOf (c :: rest) || containsSub pat rest

/-- Python `s.startswith('[')` specialised to the one use in the source. -/
def startsWithBracket : Str → Bool
  | '[' :: _ => true
  | _ => false

/-- Left-to-right, non-overlapping replacement loop of Python
`str.replace` for a non-empty pattern, with explicit fuel so the
recursion is structural; each step consumes at least one character, so
any fuel of at least the text's length computes the full replacement. -/
def replaceFuel (pat repl : Str) : Nat → Str → Str
  | 0, s => s
  | fuel + 1, s =>
    match s with
    | [] => []
    | c :: rest =>
      if pat.isPrefixOf (c :: rest) then
        repl ++ replaceFuel pat repl fuel (rest.drop (pat.length - 1))
      else
        c :: replaceFuel pat repl fuel rest

/-- Python `s.replace(pat, repl)` (all occurrences; the empty pattern
inserts `repl` at every position, as in Python). -/
def replaceAll (pat repl s : Str) : Str :=
  match pat with
  | [] => repl ++ s.foldr (fun c acc => c :: (repl ++ acc)) []
  | _ :: _ => replaceFuel pat repl s.length s

/-- Python `", ".join(columns)`. -/
def joinSep (sep : Str) : List Str → Str
  | [] => []
  | [x] => x
  | x :: y :: xs => x ++ sep ++ joinSep sep (y :: xs)

/-- Iteration order of a Python dict comprehension keyed by a list: the
list with every later duplicate removed (first occurrence kept). -/
def dedupFirstAux (seen : List Str) : List Str → List Str
  | [] => []
  | c :: rest =>
    if c ∈ seen then dedupFirstAux seen rest
    else c :: dedupFirstAux (c :: seen) rest

/-- Keys of `{col: ... for col in columns}`, in iteration order. -/
def dedupFirst (l : List Str) : List Str := dedupFirstAux [] l

/-- A Python exception, split the way `handle_query`'s two `except` arms
split it: `ValueError` (the type the source uses for invalid SQL)
versus every other `Exception`. -/
inductive Exc where
  | valueError (msg : Str)
  | otherExc (msg : Str)
deriving DecidableEq

/-- An opaque handle for a pandas `DataFrame`; its renderings
(`to_dict()`, `to_string(index=False)`) are supplied by the environment. -/
structure DF where
  handle : Nat
deriving DecidableEq

/-- The database-connection object built by `create_database_connection`
and threaded (unused) through the pipeline functions. -/
inductive DBConn where
  | conn
deriving DecidableEq

/-- One outbound call made by the source: a language-model invocation
(`llm.invoke`), a schema introspection (`inspector.get_columns`), a query
execution (`pd.read_sql` over `engine.connect()`), or a database-connection
creation (`SQLDatabase.from_uri` in `create_database_connection`). -/
inductive Event where
  | model (prompt : Str)
  | schema
  | execQuery (query : Str)
  | connect
deriving DecidableEq

/-- The external collaborators, out of scope of the repository: each call
either returns a value or raises. -/
structure Env where
  llm : Str → Except Exc Str
  getColumns : Except Exc (List Str)
  runSql : Str → Except Exc DF
  readJson : Str → Except Exc DF
  dfToDict : DF → Str
  dfToText : DF → Str

instance {ε α : Type} [DecidableEq ε] [DecidableEq α] :
    DecidableEq (Except ε α) := by
  intro a b
  cases a <;> cases b
  case error.error x y =>
    exact match decEq x y with
    | isTrue h => isTrue (by rw [h])
    | isFalse h => isFalse (by intro hh; cases hh; exact h rfl)
  case ok.ok x y =>
    exact match decEq x y with
    | isTrue h => isTrue (by rw [h])
    | isFalse h => isFalse (by intro hh; cases hh; exact h rfl)
  case error.ok x y => exact isFalse (by intro h; cases h)
  case ok.error x y => exact isFalse (by intro h; cases h)

/-- `TABLE_NAME = "employees"`. -/
def TABLE_NAME : Str := toStr "employees"

/-- The fixed greeting list of `is_greeting`. -/
def greetings : List Str :=
  [toStr "hi", toStr "hello", toStr "hey",
   toStr "good morning", toStr "good afternoon", toStr "good evening"]

/-- `is_greeting`: `user_input.lower().strip() in greetings`. -/
def is_greeting (user_input : Str) : Bool :=
  greetings.contains (stripL (lowerL user_input))

/-- The canned greeting sent by the intro step (and on member join). -/
def greetingMsg : Str :=
  toStr "Hello! How can I assist you with the employees database today?"

/-- The message of the `ValueError` raised on failed SQL validation. -/
def sqlInvalidMsg : Str :=
  toStr "Generated SQL is not valid. Please check the AI's response."

/-- The fixed user-facing message of `handle_query`'s `except ValueError` arm. -/
def errMsgSql : Str :=
  toStr "There was an issue with generating a valid SQL query. Please revise your question or contact support."

/-- The fixed user-facing message of `handle_query`'s `except Exception` arm. -/
def errMsgGeneric : Str :=
  toStr "Failed to process your question. Please try again."

/-- The dispatch of `handle_query`'s two `except` arms: `ValueError` gets
the fixed SQL message, every other exception the fixed generic message. -/
def excMessage : Exc → Str
  | Exc.valueError _ => errMsgSql
  | Exc.otherExc _ => errMsgGeneric

/-- The prompt template of `elaborate_user_input`. -/
def elaboratePrompt (user_question : Str) : Str :=
  toStr "Understand the user's actual requirements from the user questions and elaborate in detail using pre-trained knowledge, contextual understanding, and any other available information:\n\n"
    ++ user_question

/-- The prompt template of `create_sql_query_from_response`. -/
def synthPrompt (columns : List Str) (response : Str) : Str :=
  toStr "You are an agent designed to interact with a SQL database. Create a syntactically correct SQL query to run for the '"
    ++ TABLE_NAME
    ++ toStr "' table using these columns: "
    ++ joinSep (toStr ", ") columns
    ++ toStr " based on the following response: "
    ++ response
    ++ toStr ". Only return the SQL query itself."

/-- The prompt template of `prepare_final_response`. -/
def summaryPrompt (user_question dictRendering : Str) : Str :=
  toStr "You are a chatbot. Based on the user question and retrieved data, prepare a summarised and accurate response. Do ask the user if they have follow-up questions.\n\nUser Question: "
    ++ user_question
    ++ toStr "\n\nRetrieved Data:\n"
    ++ dictRendering

/-- `create_database_connection`: `SQLDatabase.from_uri(DATABASE_URL)`;
its docstring says "Creates a database connection", recorded as a
`connect` event. -/
def create_database_connection : DBConn × List Event :=
  (DBConn.conn, [Event.connect])

/-- `f'"{col}"'`: the quoted-identifier form of a column name. -/
def quoteId (col : Str) : Str := '"' :: col ++ ['"']

/-- The validation test of `create_sql_query_from_response`:
`"SELECT" in sql_query.upper() and TABLE_NAME in sql_query`.
The `SELECT` check is case-insensitive, the table-name check is a
case-sensitive exact substring check. -/
def sqlOkCheck (sql_query : Str) : Bool :=
  containsSub (toStr "SELECT") (upperL sql_query) && containsSub TABLE_NAME sql_query

/-- The for-loop over `column_mapping.items()`: a global substring
replacement of each introspected column name by its quoted form, in dict
iteration order. -/
def applyColumnQuoting (columns : List Str) (sql_query : Str) : Str :=
  (dedupFirst columns).foldl (fun s col => replaceAll col (quoteId col) s) sql_query

/-- `elaborate_user_input`: one model call, trimmed response content. -/
def elaborate_user_input (env : Env) (user_question : Str) (db : DBConn) :
    Except Exc Str × List Event :=
  let prompt := elaboratePrompt user_question
  match env.llm prompt with
  | .ok r => (.ok (stripL r), [Event.model prompt])
  | .error e => (.error e, [Event.model prompt])

/-- `create_sql_query_from_response`: introspect the columns, one model
call, trim, validate by `sqlOkCheck`, then quote the column names; on a
failed check raise `ValueError(sqlInvalidMsg)`. -/
def create_sql_query_from_response (env : Env) (response : Str) (db : DBConn) :
    Except Exc Str × List Event :=
  match env.getColumns with
  | .error e => (.error e, [Event.schema])
  | .ok columns =>
    let prompt := synthPrompt columns response
    match env.llm prompt with
    | .error e => (.error e, [Event.schema, Event.model prompt])
    | .ok raw =>
      let sql_query := stripL raw
      if sqlOkCheck sql_query then
        (.ok (applyColumnQuoting columns sql_query), [Event.schema, Event.model prompt])
      else
        (.error (Exc.valueError sqlInvalidMsg), [Event.schema, Event.model prompt])

/-- `execute_sql_query`: one execution call. -/
def execute_sql_query (env : Env) (query : Str) (db : DBConn) :
    Except Exc DF × List Event :=
  (env.runSql query, [Event.execQuery query])

/-- `prepare_final_response`: one model call over the summary prompt,
trimmed response content. -/
def prepare_final_response (env : Env) (user_question : Str) (result : DF) :
    Except Exc Str × List Event :=
  let prompt := summaryPrompt user_question (env.dfToDict result)
  match env.llm prompt with
  | .ok r => (.ok (stripL r), [Event.model prompt])
  | .error e => (.error e, [Event.model prompt])

/-- The `.replace('<br>', '\n').replace('<p>', '').replace('</p>', '')`
chain of `format_response`, in source order. -/
def stripMarkers (response : Str) : Str :=
  replaceAll (toStr "</p>") []
    (replaceAll (toStr "<p>") []
      (replaceAll (toStr "<br>") (toStr "\n") response))

/-- `format_response`: if the stripped text starts with `[`, try
`pd.read_json`; on success render the frame, on `ValueError` fall through
(`pass`) to the markup replacement; any other exception propagates. -/
def format_response (env : Env) (response : Str) : Except Exc Str :=
  if startsWithBracket (stripL response) then
    match env.readJson response with
    | .ok df => .ok (env.dfToText df)
    | .error (Exc.valueError _) => .ok (stripMarkers response)
    | .error (Exc.otherExc m) => .error (Exc.otherExc m)
  else
    .ok (stripMarkers response)

/-- Sequencing of two pipeline stages: a raised exception aborts the rest
of the `try` block, a value is passed on; events accumulate in call order. -/
def bindStage {α β : Type} (x : Except Exc α × List Event)
    (f : α → Except Exc β × List Event) : Except Exc β × List Event :=
  match x with
  | (.error e, ev) => (.error e, ev)
  | (.ok a, ev) => ((f a).1, ev ++ (f a).2)

/-- The body of `handle_query`'s `try` block: the four pipeline stages and
the final formatting, with the events of each stage in call order. -/
def pipeline (env : Env) (user_question : Str) (db : DBConn) :
    Except Exc Str × List Event :=
  bindStage (elaborate_user_input env user_question db) fun detailed_prompt =>
  bindStage (create_sql_query_from_response env detailed_prompt db) fun sql_query =>
  bindStage (execute_sql_query env sql_query db) fun result =>
  bindStage (prepare_final_response env user_question result) fun prepared_response =>
  (format_response env prepared_response, [])

/-- `handle_query`: on a falsy (empty) question do nothing and return
`None`; otherwise run the pipeline, mapping a `ValueError` to the fixed
SQL message and any other exception to the fixed generic message. -/
def handle_query (env : Env) (user_question : Str) (db : DBConn) :
    Option Str × List Event :=
  if user_question = [] then (none, [])
  else
    match pipeline env user_question db with
    | (.ok s, ev) => (some s, ev)
    | (.error (Exc.valueError _), ev) => (some errMsgSql, ev)
    | (.error (Exc.otherExc _), ev) => (some errMsgGeneric, ev)

/-- The outcome a waterfall step hands back to the dialog runtime. -/
inductive StepRes where
  | endDialog
  | nextStep
deriving DecidableEq

/-- What one waterfall step did: the activity text it sent (if any), the
outbound calls it made, and its dialog outcome. -/
structure StepOut where
  sent : Option Str
  events : List Event
  res : StepRes
deriving DecidableEq

/-- `MyBot.intro_step`: create a database connection, then either the
canned greeting or `handle_query`, send the result, and end the dialog. -/
def intro_step (env : Env) (user_question : Str) : StepOut :=
  match create_database_connection with
  | (db, ev0) =>
    if is_greeting user_question then
      { sent := some greetingMsg, events := ev0, res := StepRes.endDialog }
    else
      match handle_query env user_question db with
      | (r, ev) => { sent := r, events := ev0 ++ ev, res := StepRes.endDialog }

/-- `MyBot.act_step`: create a connection, run `handle_query` on the
previous step's result, send it, and continue to the next step. -/
def act_step (env : Env) (prev_result : Str) : StepOut :=
  match create_database_connection with
  | (db, ev0) =>
    match handle_query env prev_result db with
    | (r, ev) => { sent := r, events := ev0 ++ ev, res := StepRes.nextStep }

/-- `MyBot.final_step`: just end the dialog. -/
def final_step : StepOut :=
  { sent := none, events := [], res := StepRes.endDialog }

/-- The dialog position: at step `i` of `[intro_step, act_step, final_step]`,
or finished. -/
inductive DlgState where
  | running (i : Nat)
  | done
deriving DecidableEq

/-- The outcome of step `i` of the `mainDialog` waterfall on message `q`. -/
def stepResAt (env : Env) (q : Str) : Nat → StepRes
  | 0 => (intro_step env q).res
  | 1 => (act_step env q).res
  | _ => final_step.res

/-- One transition of the waterfall runtime: `end_dialog` finishes,
`next` advances to the following step (or finishes past the last). -/
def dlgNext (env : Env) (q : Str) : DlgState → DlgState
  | DlgState.done => DlgState.done
  | DlgState.running i =>
    match stepResAt env q i with
    | StepRes.endDialog => DlgState.done
    | StepRes.nextStep => if i + 1 < 3 then DlgState.running (i + 1) else DlgState.done

/-- The dialog state after `n` transitions of a run of `mainDialog`,
which `on_message_activity` begins at the intro step. -/
def dlgRun (env : Env) (q : Str) : Nat → DlgState
  | 0 => DlgState.running 0
  | n + 1 => dlgNext env q (dlgRun env q n)

/-- Number of model calls in a trace. -/
def modelCount (evs : List Event) : Nat :=
  evs.countP (fun e => match e with | Event.model _ => true | _ => false)

/-- Number of schema-introspection calls in a trace. -/
def schemaCount (evs : List Event) : Nat :=
  evs.countP (fun e => match e with | Event.schema => true | _ => false)

/-- Number of query-execution calls in a trace. -/
def execCount (evs : List Event) : Nat :=
  evs.countP (fun e => match e with | Event.execQuery _ => true | _ => false)

/-- Number of database-connection creations in a trace. -/
def connectCount (evs : List Event) : Nat :=
  evs.countP (fun e => match e with | Event.connect => true | _ => false)

/-- Modelled from the claim's words, not from the source: the acceptance
test as C1 states it, with BOTH the `SELECT` check and the table-name
check case-insensitive. To be compared with `sqlOkCheck`. -/
def claimedSqlCheck (sql_query : Str) : Bool :=
  containsSub (lowerL (toStr "SELECT")) (lowerL sql_query) &&
  containsSub (lowerL TABLE_NAME) (lowerL sql_query)

/-- C6's marker test: the text contains one of the three HTML markers. -/
def containsMarker (s : Str) : Bool :=
  containsSub (toStr "<br>") s || containsSub (toStr "<p>") s ||
  containsSub (toStr "</p>") s

/-- A benign environment: the model always answers with a fixed valid
`SELECT` over the one column `name`, and all calls succeed. -/
def envOk : Env where
  llm := fun _ => Except.ok (toStr "SELECT name FROM employees")
  getColumns := Except.ok [toStr "name"]
  runSql := fun _ => Except.ok { handle := 0 }
  readJson := fun _ => Except.error (Exc.valueError [])
  dfToDict := fun _ => toStr "rows"
  dfToText := fun _ => []

/-- An environment whose synthesizer answer names the table only in upper
case: accepted by C1's claimed case-insensitive test, rejected by the code. -/
def envSynthCi : Env :=
  { envOk with llm := fun _ => Except.ok (toStr "select * from EMPLOYEES") }

/-- An environment whose synthesizer answer is not SQL at all. -/
def envSynthBad : Env :=
  { envOk with llm := fun _ => Except.ok (toStr "no sql here") }

/-- An environment whose synthesizer answer fails both validation checks. -/
def envSynthDrop : Env :=
  { envOk with llm := fun _ => Except.ok (toStr "DROP TABLE users") }

/-- An environment whose model call raises a `ValueError` before any SQL
validation can happen. -/
def envElabVE : Env :=
  { envOk with llm := fun _ => Except.error (Exc.valueError (toStr "boom")) }

/-- An environment whose JSON parser succeeds, rendering a fixed table. -/
def envJsonOk : Env :=
  { envOk with
      readJson := fun _ => Except.ok { handle := 1 }
      dfToText := fun _ => toStr "tabular rendering" }

/-! ## Helper lemmas -/

lemma containsSub_nil_left (s : Str) : containsSub [] s = true := by
  cases s <;> simp [containsSub, List.isPrefixOf]

lemma replaceFuel_of_not_contains (pat repl : Str) :
    ∀ (fuel : Nat) (s : Str), containsSub pat s = false →
      replaceFuel pat repl fuel s = s := by
  intro fuel
  induction fuel with
  | zero => intro s _; rfl
  | succ m ih =>
    intro s h
    cases s with
    | nil => rfl
    | cons c rest =>
      rw [containsSub] at h
      simp only [Bool.or_eq_false_iff] at h
      rw [replaceFuel]
      rw [if_neg (by simp [h.1]), ih rest h.2]

lemma replaceAll_of_not_contains (pat repl s : Str)
    (h : containsSub pat s = false) : replaceAll pat repl s = s := by
  cases pat with
  | nil => rw [containsSub_nil_left] at h; cases h
  | cons p0 ptl => exact replaceFuel_of_not_contains (p0 :: ptl) repl s.length s h

lemma stripMarkers_of_no_markers (s : Str) (h : containsMarker s = false) :
    stripMarkers s = s := by
  rw [containsMarker] at h
  simp only [Bool.or_eq_false_iff] at h
  rw [stripMarkers, replaceAll_of_not_contains _ _ _ h.1.1,
    replaceAll_of_not_contains _ _ _ h.1.2, replaceAll_of_not_contains _ _ _ h.2]

lemma dedupFirstAux_of_nodup :
    ∀ (l seen : List Str), l.Nodup → (∀ x ∈ l, x ∉ seen) →
      dedupFirstAux seen l = l := by
  intro l
  induction l with
  | nil => intro seen _ _; rfl
  | cons c rest ih =>
    intro seen hnd hout
    rw [dedupFirstAux, if_neg (hout c (by simp))]
    rw [ih (c :: seen) (List.Nodup.of_cons hnd)]
    intro x hx
    simp only [List.mem_cons, not_or]
    exact ⟨fun hxc => (List.nodup_cons.mp hnd).1 (hxc ▸ hx),
           hout x (List.mem_cons_of_mem c hx)⟩

lemma dedupFirst_of_nodup (l : List Str) (h : l.Nodup) : dedupFirst l = l :=
  dedupFirstAux_of_nodup l [] h (by simp)

lemma elaborate_snd (env : Env) (q : Str) (db : DBConn) :
    (elaborate_user_input env q db).2 = [Event.model (elaboratePrompt q)] := by
  cases h : env.llm (elaboratePrompt q) <;> simp [elaborate_user_input, h]

lemma bindStage_error {α β : Type} (e : Exc) (ev : List Event)
    (f : α → Except Exc β × List Event) :
    bindStage (Except.error e, ev) f = (Except.error e, ev) := rfl

lemma bindStage_ok {α β : Type} (a : α) (ev : List Event)
    (f : α → Except Exc β × List Event) :
    bindStage (Except.ok a, ev) f = ((f a).1, ev ++ (f a).2) := rfl

lemma bindStage_snd {α β : Type} (x : Except Exc α × List Event)
    (f : α → Except Exc β × List Event) :
    ∃ tl, (bindStage x f).2 = x.2 ++ tl := by
  rcases x with ⟨r, ev⟩
  cases r with
  | error e => exact ⟨[], by simp [bindStage]⟩
  | ok a => exact ⟨(f a).2, rfl⟩

lemma handle_query_events (env : Env) (q : Str) (db : DBConn) (hq : q ≠ []) :
    (handle_query env q db).2 = (pipeline env q db).2 := by
  rw [handle_query, if_neg hq]
  rcases h : pipeline env q db with ⟨r, ev⟩
  cases r with
  | ok s => rfl
  | error e => cases e <;> rfl

lemma pipeline_snd_head (env : Env) (q : Str) (db : DBConn) :
    ∃ tl, (pipeline env q db).2 = Event.model (elaboratePrompt q) :: tl := by
  obtain ⟨tl, htl⟩ := bindStage_snd (elaborate_user_input env q db)
    (fun detailed_prompt =>
      bindStage (create_sql_query_from_response env detailed_prompt db) fun sql_query =>
      bindStage (execute_sql_query env sql_query db) fun result =>
      bindStage (prepare_final_response env q result) fun prepared_response =>
      (format_response env prepared_response, []))
  refine ⟨tl, ?_⟩
  rw [pipeline, htl, elaborate_snd]
  rfl

lemma elaborate_eq_of_ok (env : Env) (q : Str) (db : DBConn) (d : Str)
    (h1 : env.llm (elaboratePrompt q) = Except.ok d) :
    elaborate_user_input env q db
      = (Except.ok (stripL d), [Event.model (elaboratePrompt q)]) := by
  simp [elaborate_user_input, h1]

lemma prepare_eq_of_ok (env : Env) (q : Str) (df : DF) (r : Str)
    (h : env.llm (summaryPrompt q (env.dfToDict df)) = Except.ok r) :
    prepare_final_response env q df
      = (Except.ok (stripL r), [Event.model (summaryPrompt q (env.dfToDict df))]) := by
  simp [prepare_final_response, h]

lemma create_sql_ok_shape (env : Env) (resp : Str) (db : DBConn)
    (sql : Str) (ev : List Event)
    (h : create_sql_query_from_response env resp db = (Except.ok sql, ev)) :
    ∃ cols raw, env.getColumns = Except.ok cols ∧
      env.llm (synthPrompt cols resp) = Except.ok raw ∧
      sqlOkCheck (stripL raw) = true ∧
      sql = applyColumnQuoting cols (stripL raw) ∧
      ev = [Event.schema, Event.model (synthPrompt cols resp)] := by
  cases hc : env.getColumns with
  | error e =>
    rw [show create_sql_query_from_response env resp db = (Except.error e, [Event.schema]) by
      simp [create_sql_query_from_response, hc]] at h
    simp at h
  | ok cols =>
    cases hl : env.llm (synthPrompt cols resp) with
    | error e =>
      rw [show create_sql_query_from_response env resp db
            = (Except.error e, [Event.schema, Event.model (synthPrompt cols resp)]) by
        simp [create_sql_query_from_response, hc, hl]] at h
      simp at h
    | ok raw =>
      by_cases hok : sqlOkCheck (stripL raw) = true
      · rw [show create_sql_query_from_response env resp db
              = (Except.ok (applyColumnQuoting cols (stripL raw)),
                 [Event.schema, Event.model (synthPrompt cols resp)]) by
          simp [create_sql_query_from_response, hc, hl, hok]] at h
        simp only [Prod.mk.injEq, Except.ok.injEq] at h
        exact ⟨cols, raw, rfl, hl, hok, h.1.symm, h.2.symm⟩
      · rw [show create_sql_query_from_response env resp db
              = (Except.error (Exc.valueError sqlInvalidMsg),
                 [Event.schema, Event.model (synthPrompt cols resp)]) by
          simp [create_sql_query_from_response, hc, hl, hok]] at h
        simp at h

lemma pipeline_ok_trace (env : Env) (q : Str) (db : DBConn)
    (v : Str) (ev : List Event)
    (h : pipeline env q db = (Except.ok v, ev)) :
    ∃ p2 sql p4,
      ev = [Event.model (elaboratePrompt q), Event.schema, Event.model p2,
            Event.execQuery sql, Event.model p4] := by
  rw [pipeline] at h
  cases h1 : env.llm (elaboratePrompt q) with
  | error e =>
    rw [show elaborate_user_input env q db
          = (Except.error e, [Event.model (elaboratePrompt q)]) by
        simp [elaborate_user_input, h1], bindStage_error] at h
    simp at h
  | ok d =>
    rw [elaborate_eq_of_ok env q db d h1, bindStage_ok] at h
    rcases h2 : create_sql_query_from_response env (stripL d) db with ⟨r2, ev2⟩
    rw [h2] at h
    cases r2 with
    | error e => rw [bindStage_error] at h; simp at h
    | ok sql =>
      obtain ⟨cols, raw, _, _, _, _, hev2⟩ :=
        create_sql_ok_shape env (stripL d) db sql ev2 h2
      subst hev2
      rw [bindStage_ok] at h
      cases h3 : env.runSql sql with
      | error e =>
        rw [show execute_sql_query env sql db
              = (Except.error e, [Event.execQuery sql]) by
            rw [execute_sql_query, h3], bindStage_error] at h
        simp at h
      | ok df =>
        rw [show execute_sql_query env sql db
              = (Except.ok df, [Event.execQuery sql]) by
            rw [execute_sql_query, h3], bindStage_ok] at h
        cases h4 : env.llm (summaryPrompt q (env.dfToDict df)) with
        | error e =>
          rw [show prepare_final_response env q df
                = (Except.error e, [Event.model (summaryPrompt q (env.dfToDict df))]) by
              simp [prepare_final_response, h4], bindStage_error] at h
          simp at h
        | ok r4 =>
          rw [prepare_eq_of_ok env q df r4 h4, bindStage_ok] at h
          cases h5 : format_response env (stripL r4) with
          | error e => rw [h5] at h; simp at h
          | ok f =>
            rw [h5] at h
            refine ⟨synthPrompt cols (stripL d), sql,
                    summaryPrompt q (env.dfToDict df), ?_⟩
            simp only [Prod.mk.injEq] at h
            simp [h.2.symm]

lemma pipeline_invalid_trace (env : Env) (q : Str) (db : DBConn)
    (d raw : Str) (cols : List Str)
    (h1 : env.llm (elaboratePrompt q) = Except.ok d)
    (hc : env.getColumns = Except.ok cols)
    (hl : env.llm (synthPrompt cols (stripL d)) = Except.ok raw)
    (hok : sqlOkCheck (stripL raw) = false) :
    pipeline env q db
      = (Except.error (Exc.valueError sqlInvalidMsg),
         [Event.model (elaboratePrompt q), Event.schema,
          Event.model (synthPrompt cols (stripL d))]) := by
  rw [pipeline, elaborate_eq_of_ok env q db d h1, bindStage_ok]
  rw [show create_sql_query_from_response env (stripL d) db
        = (Except.error (Exc.valueError sqlInvalidMsg),
           [Event.schema, Event.model (synthPrompt cols (stripL d))]) by
      simp [create_sql_query_from_response, hc, hl, hok], bindStage_error]
  rfl

lemma intro_res (env : Env) (q : Str) :
    (intro_step env q).res = StepRes.endDialog := by
  rw [intro_step, create_database_connection]
  cases hg : is_greeting q with
  | true => rfl
  | false =>
    simp only [Bool.false_eq_true, if_false]

lemma dlgRun_cases (env : Env) (q : Str) :
    ∀ n, dlgRun env q n = DlgState.running 0 ∨ dlgRun env q n = DlgState.done := by
  intro n
  induction n with
  | zero => exact Or.inl rfl
  | succ m ih =>
    rcases ih with h | h <;> rw [dlgRun, h]
    · rw [dlgNext, stepResAt, intro_res]
      exact Or.inr rfl
    · exact Or.inr rfl

/-! ## Claim theorems -/

/-- Claim C1, counterexample: the claim's acceptance test is
case-insensitive for the table name as well, but the code's test
(`TABLE_NAME in sql_query`) is case-sensitive: the trimmed statement
`select * from EMPLOYEES` satisfies the claimed check yet the synthesizer
rejects it with `ValueError`; moreover the raised `ValueError` carries the
fixed message only — it does not carry the rejected text (shown on a
statement failing both checks). -/
theorem C1_claim_counterexample :
    claimedSqlCheck (stripL (toStr "select * from EMPLOYEES")) = true ∧
    (create_sql_query_from_response envSynthCi (toStr "any question") DBConn.conn).1
      = Except.error (Exc.valueError sqlInvalidMsg) ∧
    (create_sql_query_from_response envSynthDrop (toStr "any question") DBConn.conn).1
      = Except.error (Exc.valueError sqlInvalidMsg) ∧
    containsSub (toStr "DROP TABLE users") sqlInvalidMsg = false := by
  decide

/-- Claim C1 (amended): the synthesizer accepts the model's trimmed
statement if and only if it contains the substring `SELECT`
case-insensitively AND contains the configured table name as a
case-sensitive exact substring; on any statement failing this check it
raises `InvalidSqlError` (`ValueError`) with the fixed message (the
rejected text is logged, not carried in the exception), and it never
raises any other fault for such a statement. -/
theorem C1_validation_amended (env : Env) (response raw : Str) (db : DBConn)
    (cols : List Str)
    (hc : env.getColumns = Except.ok cols)
    (hl : env.llm (synthPrompt cols response) = Except.ok raw) :
    (sqlOkCheck (stripL raw) = true →
      (create_sql_query_from_response env response db).1
        = Except.ok (applyColumnQuoting cols (stripL raw))) ∧
    (sqlOkCheck (stripL raw) = false →
      create_sql_query_from_response env response db
        = (Except.error (Exc.valueError sqlInvalidMsg),
           [Event.schema, Event.model (synthPrompt cols response)])) := by
  constructor <;> intro h <;> simp [create_sql_query_from_response, hc, hl, h]

/-- Witness for C1 (amended): a valid statement is accepted and quoted; an
invalid one yields exactly the fixed `ValueError`. -/
theorem C1_validation_amended_witness :
    (create_sql_query_from_response envOk (toStr "question") DBConn.conn).1
      = Except.ok (applyColumnQuoting [toStr "name"]
          (stripL (toStr "SELECT name FROM employees"))) ∧
    create_sql_query_from_response envSynthDrop (toStr "question") DBConn.conn
      = (Except.error (Exc.valueError sqlInvalidMsg),
         [Event.schema, Event.model (synthPrompt [toStr "name"] (toStr "question"))]) :=
  ⟨(C1_validation_amended envOk (toStr "question") (toStr "SELECT name FROM employees")
      DBConn.conn [toStr "name"] rfl rfl).1 (by decide),
   (C1_validation_amended envSynthDrop (toStr "question") (toStr "DROP TABLE users")
      DBConn.conn [toStr "name"] rfl rfl).2 (by decide)⟩

/-- Claim C2, counterexample: on the greeting input `hello` the intro step
does return the canned greeting with zero model, schema and execution
calls, but it is NOT true that no database connection happens: the intro
step calls `create_database_connection()` before the greeting check, so
exactly one connection-creation call occurs, not zero. -/
theorem C2_claim_counterexample :
    is_greeting (toStr "hello") = true ∧
    (intro_step envOk (toStr "hello")).sent = some greetingMsg ∧
    modelCount (intro_step envOk (toStr "hello")).events = 0 ∧
    schemaCount (intro_step envOk (toStr "hello")).events = 0 ∧
    execCount (intro_step envOk (toStr "hello")).events = 0 ∧
    connectCount (intro_step envOk (toStr "hello")).events = 1 := by
  decide

/-- Claim C2 (amended): for every input that, after trimming and
case-folding, equals one of the greeting phrases, the intro step responds
with the canned greeting and issues zero model calls, zero
schema-introspection calls and zero query-execution calls — but one
database-connection creation, made before the greeting check. -/
theorem C2_greeting_amended (env : Env) (q : Str) (h : is_greeting q = true) :
    intro_step env q
      = { sent := some greetingMsg, events := [Event.connect],
          res := StepRes.endDialog } ∧
    modelCount (intro_step env q).events = 0 ∧
    schemaCount (intro_step env q).events = 0 ∧
    execCount (intro_step env q).events = 0 ∧
    connectCount (intro_step env q).events = 1 := by
  have h1 : intro_step env q
      = { sent := some greetingMsg, events := [Event.connect],
          res := StepRes.endDialog } := by
    rw [intro_step, create_database_connection]
    simp [h]
  refine ⟨h1, ?_, ?_, ?_, ?_⟩ <;> rw [h1] <;> decide

/-- Witness for C2 (amended) at the mixed-case padded greeting input. -/
theorem C2_greeting_amended_witness :
    intro_step envOk (toStr "Good Morning ")
      = { sent := some greetingMsg, events := [Event.connect],
          res := StepRes.endDialog } :=
  (C2_greeting_amended envOk (toStr "Good Morning ") (by decide)).1

/-- Claim C3, counterexample: the claim maps only the validation
`InvalidSqlError` to the SQL message and "any other exception from any
stage" to the generic message, but the code dispatches on the Python
exception TYPE: a `ValueError` raised by the very first model call — no
SQL validation ever ran, as the absence of a schema call shows — is also
answered with the SQL message rather than the generic one. -/
theorem C3_claim_counterexample :
    (handle_query envElabVE (toStr "list employees") DBConn.conn).1 = some errMsgSql ∧
    schemaCount (handle_query envElabVE (toStr "list employees") DBConn.conn).2 = 0 ∧
    errMsgSql ≠ errMsgGeneric := by
  decide

/-- Claim C3 (amended): every fault is caught at the `handle_query`
boundary; a `ValueError` from any stage (the type used for
`InvalidSqlError`) yields the fixed "There was an issue with generating a
valid SQL query..." constant and any non-`ValueError` exception yields
the fixed "Failed to process your question..." constant, so on any fault
the returned text is exactly one of these two constants and never the
exception's own text or the SQL statement. -/
theorem C3_error_mapping (env : Env) (q : Str) (db : DBConn) (e : Exc)
    (ev : List Event)
    (hq : q ≠ []) (hp : pipeline env q db = (Except.error e, ev)) :
    handle_query env q db = (some (excMessage e), ev) ∧
    ((handle_query env q db).1 = some errMsgSql ∨
     (handle_query env q db).1 = some errMsgGeneric) := by
  have h1 : handle_query env q db = (some (excMessage e), ev) := by
    rw [handle_query, if_neg hq, hp]
    cases e <;> rfl
  refine ⟨h1, ?_⟩
  cases e with
  | valueError m => rw [h1]; exact Or.inl rfl
  | otherExc m => rw [h1]; exact Or.inr rfl

set_option maxRecDepth 100000 in
/-- Witness for C3 (amended): the `ValueError` fault from the first model
call is caught and mapped to the fixed SQL message. -/
theorem C3_error_mapping_witness :
    handle_query envElabVE (toStr "list employees") DBConn.conn
      = (some errMsgSql, [Event.model (elaboratePrompt (toStr "list employees"))]) :=
  (C3_error_mapping envElabVE (toStr "list employees") DBConn.conn
    (Exc.valueError (toStr "boom"))
    [Event.model (elaboratePrompt (toStr "list employees"))]
    (by decide) (by decide)).1

/-- Claim C4, counterexample: for the non-empty, non-greeting question
`show data` with a synthesizer answer that fails SQL validation, only TWO
language-model invocations occur, not the claimed three (the summarize
call is never reached). -/
theorem C4_claim_counterexample :
    is_greeting (toStr "show data") = false ∧
    toStr "show data" ≠ [] ∧
    modelCount (handle_query envSynthBad (toStr "show data") DBConn.conn).2 = 2 ∧
    ¬ modelCount (handle_query envSynthBad (toStr "show data") DBConn.conn).2 = 3 := by
  decide

/-- Claim C4 (amended): for every non-empty question, on a run of
`handle_query` in which the whole pipeline completes without a fault,
exactly three model invocations, exactly one schema-introspection call and
exactly one query-execution call occur; on a run in which the external
calls succeed but SQL validation rejects the statement, exactly two model
invocations and one schema call occur and no execution call. -/
theorem C4_call_counts (env : Env) (q : Str) (db : DBConn) (hq : q ≠ []) :
    (∀ v ev, pipeline env q db = (Except.ok v, ev) →
      modelCount (handle_query env q db).2 = 3 ∧
      schemaCount (handle_query env q db).2 = 1 ∧
      execCount (handle_query env q db).2 = 1) ∧
    (∀ d cols raw,
      env.llm (elaboratePrompt q) = Except.ok d →
      env.getColumns = Except.ok cols →
      env.llm (synthPrompt cols (stripL d)) = Except.ok raw →
      sqlOkCheck (stripL raw) = false →
      modelCount (handle_query env q db).2 = 2 ∧
      schemaCount (handle_query env q db).2 = 1 ∧
      execCount (handle_query env q db).2 = 0) := by
  constructor
  · intro v ev h
    obtain ⟨p2, sql, p4, hev⟩ := pipeline_ok_trace env q db v ev h
    rw [handle_query_events env q db hq, h, hev]
    refine ⟨?_, ?_, ?_⟩ <;>
      simp [modelCount, schemaCount, execCount, List.countP_cons, List.countP_nil]
  · intro d cols raw h1 hc hl hok
    rw [handle_query_events env q db hq,
        pipeline_invalid_trace env q db d raw cols h1 hc hl hok]
    refine ⟨?_, ?_, ?_⟩ <;>
      simp [modelCount, schemaCount, execCount, List.countP_cons, List.countP_nil]

set_option maxRecDepth 100000 in
/-- Witness for C4 (amended): the benign run makes 3 model calls, 1
schema call, 1 execution; the validation-failure run makes 2 model calls,
1 schema call, 0 executions. -/
theorem C4_call_counts_witness :
    (modelCount (handle_query envOk (toStr "show data") DBConn.conn).2 = 3 ∧
     schemaCount (handle_query envOk (toStr "show data") DBConn.conn).2 = 1 ∧
     execCount (handle_query envOk (toStr "show data") DBConn.conn).2 = 1) ∧
    (modelCount (handle_query envSynthBad (toStr "show data") DBConn.conn).2 = 2 ∧
     schemaCount (handle_query envSynthBad (toStr "show data") DBConn.conn).2 = 1 ∧
     execCount (handle_query envSynthBad (toStr "show data") DBConn.conn).2 = 0) :=
  ⟨(C4_call_counts envOk (toStr "show data") DBConn.conn (by decide)).1
      (toStr "SELECT name FROM employees")
      [Event.model (elaboratePrompt (toStr "show data")), Event.schema,
       Event.model (synthPrompt [toStr "name"] (toStr "SELECT name FROM employees")),
       Event.execQuery (toStr "SELECT \"name\" FROM employees"),
       Event.model (summaryPrompt (toStr "show data") (toStr "rows"))]
      (by decide),
   (C4_call_counts envSynthBad (toStr "show data") DBConn.conn (by decide)).2
      (toStr "no sql here") [toStr "name"] (toStr "no sql here")
      rfl rfl rfl (by decide)⟩

/-- Claim C5 (confirmed): when the synthesized trimmed statement passes
validation, the returned SQL is the accepted text with every occurrence
of every introspected column name rewritten to its double-quoted form by
a global substring replacement (`replaceAll`, not tokenized), folded over
the columns in the order they were introspected. -/
theorem C5_column_rewrite (env : Env) (response raw : Str) (db : DBConn)
    (cols : List Str)
    (hc : env.getColumns = Except.ok cols) (hnd : cols.Nodup)
    (hl : env.llm (synthPrompt cols response) = Except.ok raw)
    (hok : sqlOkCheck (stripL raw) = true) :
    (create_sql_query_from_response env response db).1
      = Except.ok (cols.foldl (fun s col => replaceAll col (quoteId col) s)
          (stripL raw)) := by
  simp [create_sql_query_from_response, hc, hl, hok, applyColumnQuoting,
        dedupFirst_of_nodup cols hnd]

set_option maxRecDepth 100000 in
/-- Witness for C5: the accepted statement `SELECT name FROM employees`
over the single column `name` is rewritten to quote the column. -/
theorem C5_column_rewrite_witness :
    (create_sql_query_from_response envOk (toStr "question") DBConn.conn).1
      = Except.ok (toStr "SELECT \"name\" FROM employees") :=
  (C5_column_rewrite envOk (toStr "question") (toStr "SELECT name FROM employees")
      DBConn.conn [toStr "name"] rfl (by decide) rfl (by decide)).trans (by decide)

/-- Claim C6 (confirmed): `format_response` is the identity on every
string that contains none of the markers `<br>`, `<p>`, `</p>` and whose
stripped form does not start with `[`; on a string whose stripped form
starts with `[` and which the JSON parser accepts as an array it returns
the tabular rendering of the parsed frame rather than the raw JSON; and
on a marker-containing string not taking the JSON path it returns the
text with the three markers replaced as in the source. -/
theorem C6_format_cases (env : Env) (s : Str) :
    (containsMarker s = false → startsWithBracket (stripL s) = false →
      format_response env s = Except.ok s) ∧
    (∀ df, startsWithBracket (stripL s) = true → env.readJson s = Except.ok df →
      format_response env s = Except.ok (env.dfToText df)) ∧
    (containsMarker s = true → startsWithBracket (stripL s) = false →
      format_response env s = Except.ok (stripMarkers s)) := by
  refine ⟨?_, ?_, ?_⟩
  · intro hm hb
    rw [format_response, if_neg (by simp [hb]), stripMarkers_of_no_markers s hm]
  · intro df hb hj
    rw [format_response, if_pos (by simp [hb]), hj]
  · intro _ hb
    rw [format_response, if_neg (by simp [hb])]

/-- Witness for C6: plain text is returned unchanged; a JSON-array-shaped
string is rendered by the parsed frame; markup is stripped. -/
theorem C6_format_cases_witness :
    format_response envJsonOk (toStr "plain text") = Except.ok (toStr "plain text") ∧
    format_response envJsonOk (toStr " [1, 2]")
      = Except.ok (toStr "tabular rendering") ∧
    format_response envJsonOk (toStr "a<br>b")
      = Except.ok (stripMarkers (toStr "a<br>b")) :=
  ⟨(C6_format_cases envJsonOk (toStr "plain text")).1 (by decide) (by decide),
   (C6_format_cases envJsonOk (toStr " [1, 2]")).2.1 { handle := 1 }
     (by decide) rfl,
   (C6_format_cases envJsonOk (toStr "a<br>b")).2.2 (by decide) (by decide)⟩

/-- Claim C7 (confirmed): on the empty question `handle_query` returns
`None` and makes no external call, and the intro step forwards whatever
`handle_query` returns to the transport, with no check for the empty
case. -/
theorem C7_empty_question (env : Env) (db : DBConn) :
    handle_query env [] db = (none, []) ∧
    (intro_step env []).sent = none ∧
    (∀ q, is_greeting q = false →
      (intro_step env q).sent = (handle_query env q DBConn.conn).1) := by
  have hforward : ∀ q, is_greeting q = false →
      (intro_step env q).sent = (handle_query env q DBConn.conn).1 := by
    intro q hg
    rw [intro_step, create_database_connection]
    simp only [hg, Bool.false_eq_true, if_false]
  have hempty : handle_query env [] db = (none, []) := by
    rw [handle_query, if_pos rfl]
  refine ⟨hempty, ?_, hforward⟩
  rw [hforward [] (by decide), handle_query, if_pos rfl]

/-- Witness for C7: with the benign environment, the empty question
yields no response and the intro step forwards the pipeline's answer. -/
theorem C7_empty_question_witness :
    handle_query envOk [] DBConn.conn = (none, []) ∧
    (intro_step envOk (toStr "show data")).sent
      = (handle_query envOk (toStr "show data") DBConn.conn).1 :=
  ⟨(C7_empty_question envOk DBConn.conn).1,
   (C7_empty_question envOk DBConn.conn).2.2 (toStr "show data") (by decide)⟩

/-- Claim C8 (confirmed): in every run of the three-step waterfall the
intro step ends the dialog itself, so no number of dialog transitions
ever reaches the act step (position 1) or the final step (position 2). -/
theorem C8_act_final_unreachable (env : Env) (q : Str) :
    (intro_step env q).res = StepRes.endDialog ∧
    ∀ n, dlgRun env q n ≠ DlgState.running 1 ∧ dlgRun env q n ≠ DlgState.running 2 := by
  refine ⟨intro_res env q, ?_⟩
  intro n
  rcases dlgRun_cases env q n with h | h <;> rw [h] <;>
    exact ⟨by decide, by decide⟩

/-- Claim C9 (confirmed): `handle_query` itself has no greeting bypass:
on every greeting-phrase input its first action is still the elaborate
model call, and on the concrete greeting `hello` under a benign
environment the full pipeline runs — three model calls, one execution —
and the answer is not the canned greeting. -/
theorem C9_handle_query_no_bypass (env : Env) (q : Str) (db : DBConn)
    (h : is_greeting q = true) :
    (handle_query env q db).2.head? = some (Event.model (elaboratePrompt q)) ∧
    modelCount (handle_query envOk (toStr "hello") DBConn.conn).2 = 3 ∧
    execCount (handle_query envOk (toStr "hello") DBConn.conn).2 = 1 ∧
    (handle_query envOk (toStr "hello") DBConn.conn).1 ≠ some greetingMsg := by
  have hq : q ≠ [] := by
    intro he
    rw [he] at h
    exact absurd h (by decide)
  obtain ⟨tl, htl⟩ := pipeline_snd_head env q db
  refine ⟨?_, by decide, by decide, by decide⟩
  rw [handle_query_events env q db hq, htl]
  rfl

set_option maxRecDepth 100000 in
/-- Witness for C9: the greeting `hello` fed directly to `handle_query`
still triggers the elaborate model call first. -/
theorem C9_handle_query_no_bypass_witness :
    (handle_query envOk (toStr "hello") DBConn.conn).2.head?
      = some (Event.model (elaboratePrompt (toStr "hello"))) :=
  (C9_handle_query_no_bypass envOk (toStr "hello") DBConn.conn (by decide)).1

/-- Claim C10 (confirmed): `format_response` never raises on malformed
input: when the stripped text starts with `[` but the JSON parse raises
`ValueError`, the error is swallowed and the markup-replacement path
returns normally. -/
theorem C10_malformed_json_no_raise (env : Env) (s m : Str)
    (hb : startsWithBracket (stripL s) = true)
    (hj : env.readJson s = Except.error (Exc.valueError m)) :
    format_response env s = Except.ok (stripMarkers s) := by
  rw [format_response, if_pos (by simp [hb]), hj]

/-- Witness for C10: a malformed JSON-looking string falls through to the
markup replacement. -/
theorem C10_malformed_json_no_raise_witness :
    format_response envOk (toStr "[broken <p>json")
      = Except.ok (stripMarkers (toStr "[broken <p>json")) :=
  C10_malformed_json_no_raise envOk (toStr "[broken <p>json") [] (by decide) rfl
